import Mathlib

/-!
Verification of the write-through cache decorator (`minimalkv/cache.py`).

The decorator composes two key-value backends, a `cache` and an authoritative
backing `store`, into one logical store.  We embed the Python class
`CacheDecorator` shallowly: each backend is an abstract record of operations
over an explicit state type, each operation returning `Except Err α` together
with the successor state.  Python exception classes are mapped as

  * `KeyError`             ↦ `Err.notFound`
  * `IOError`              ↦ `Err.ioError`
  * any other exception    ↦ `Err.other`

each carrying a `Nat` payload so that "propagates unmodified" is expressible
as equality of error values.  A `try/finally` block is embedded by running the
body, then the finalizer, with the finalizer's exception superseding the
body's outcome — exactly CPython's semantics for the code at hand.
-/

/-- Exception classes relevant to `cache.py`'s `except` clauses.  The `Nat`
payload distinguishes individual exception instances of the same class. -/
inductive Err where
  | notFound : Nat → Err
  | ioError : Nat → Err
  | other : Nat → Err
deriving DecidableEq, Repr

/-- A key-value backend (the Storage Contract): state type `σ`, opaque
stream-handle type `H` (returned by `open_`, consumed by `put_file`) and
opaque sink type `F` (consumed by `get_file`).  Every operation maps a state
to an outcome and a successor state, so a backend may record calls or fail
arbitrarily. -/
structure KVStore (σ H F : Type) where
  get : String → σ → Except Err String × σ
  put : String → String → σ → Except Err String × σ
  delete : String → σ → Except Err Unit × σ
  get_file : String → F → σ → Except Err Unit × σ
  put_file : String → H → σ → Except Err String × σ
  open_ : String → σ → Except Err H × σ
  copy : String → String → σ → Except Err String × σ

namespace CacheDecorator

variable {σc σs H F : Type}

/-- Embeds `CacheDecorator.delete`: `self._dstore.delete(key)` then
`self.cache.delete(key)`, two plain statements with no `try/finally`; an
exception from the store propagates at once and the cache statement is then
never reached. -/
def delete (c : KVStore σc H F) (s : KVStore σs H F) (key : String)
    (st : σc × σs) : Except Err Unit × (σc × σs) :=
  match s.delete key st.2 with
  | (Except.error e, s1) => (Except.error e, (st.1, s1))
  | (Except.ok _, s1) =>
      match c.delete key st.1 with
      | (r, c1) => (r, (c1, s1))

/-- Embeds `CacheDecorator.get`: try `cache.get`; on `KeyError` fetch from the store,
`cache.put` the value and return it; on `IOError` bypass the cache and return
`store.get` directly; any other exception propagates. -/
def get (c : KVStore σc H F) (s : KVStore σs H F) (key : String)
    (st : σc × σs) : Except Err String × (σc × σs) :=
  match c.get key st.1 with
  | (Except.ok v, c1) => (Except.ok v, (c1, st.2))
  | (Except.error (Err.notFound _), c1) =>
      match s.get key st.2 with
      | (Except.error e, s1) => (Except.error e, (c1, s1))
      | (Except.ok data, s1) =>
          match c.put key data c1 with
          | (Except.error e, c2) => (Except.error e, (c2, s1))
          | (Except.ok _, c2) => (Except.ok data, (c2, s1))
  | (Except.error (Err.ioError _), c1) =>
      match s.get key st.2 with
      | (r, s1) => (r, (c1, s1))
  | (Except.error e, c1) => (Except.error e, (c1, st.2))

/-- Embeds `CacheDecorator.get_file`: try `cache.get_file(key, file)`; on `KeyError`
open the store's stream, `cache.put_file` it, and re-read from the cache; an
`IOError` (or any other exception) is NOT caught and propagates — the sink may
already hold partial data, so there is no fallback. -/
def get_file (c : KVStore σc H F) (s : KVStore σs H F) (key : String)
    (file : F) (st : σc × σs) : Except Err Unit × (σc × σs) :=
  match c.get_file key file st.1 with
  | (Except.ok u, c1) => (Except.ok u, (c1, st.2))
  | (Except.error (Err.notFound _), c1) =>
      match s.open_ key st.2 with
      | (Except.error e, s1) => (Except.error e, (c1, s1))
      | (Except.ok fp, s1) =>
          match c.put_file key fp c1 with
          | (Except.error e, c2) => (Except.error e, (c2, s1))
          | (Except.ok _, c2) =>
              match c.get_file key file c2 with
              | (r, c3) => (r, (c3, s1))
  | (Except.error e, c1) => (Except.error e, (c1, st.2))

/-- Embeds `CacheDecorator.open`: try `cache.open`; on `KeyError` populate the cache
from the store's stream and re-open from the cache; on `IOError` bypass the
cache and open from the store directly. -/
def open_ (c : KVStore σc H F) (s : KVStore σs H F) (key : String)
    (st : σc × σs) : Except Err H × (σc × σs) :=
  match c.open_ key st.1 with
  | (Except.ok h, c1) => (Except.ok h, (c1, st.2))
  | (Except.error (Err.notFound _), c1) =>
      match s.open_ key st.2 with
      | (Except.error e, s1) => (Except.error e, (c1, s1))
      | (Except.ok fp, s1) =>
          match c.put_file key fp c1 with
          | (Except.error e, c2) => (Except.error e, (c2, s1))
          | (Except.ok _, c2) =>
              match c.open_ key c2 with
              | (r, c3) => (r, (c3, s1))
  | (Except.error (Err.ioError _), c1) =>
      match s.open_ key st.2 with
      | (r, s1) => (r, (c1, s1))
  | (Except.error e, c1) => (Except.error e, (c1, st.2))

/-- Embeds `CacheDecorator.copy`: `try: k = store.copy(source, dest) finally:
cache.delete(dest)`, then `return k`.  The finalizer runs on every exit path;
if it raises, its exception supersedes the body's outcome. -/
def copy (c : KVStore σc H F) (s : KVStore σs H F) (source dest : String)
    (st : σc × σs) : Except Err String × (σc × σs) :=
  match s.copy source dest st.2 with
  | (r, s1) =>
      match c.delete dest st.1 with
      | (Except.error e, c1) => (Except.error e, (c1, s1))
      | (Except.ok _, c1) => (r, (c1, s1))

/-- Embeds `CacheDecorator.put`: `try: return store.put(key, data) finally:
cache.delete(key)`. -/
def put (c : KVStore σc H F) (s : KVStore σs H F) (key data : String)
    (st : σc × σs) : Except Err String × (σc × σs) :=
  match s.put key data st.2 with
  | (r, s1) =>
      match c.delete key st.1 with
      | (Except.error e, c1) => (Except.error e, (c1, s1))
      | (Except.ok _, c1) => (r, (c1, s1))

/-- Embeds `CacheDecorator.put_file`: `try: return store.put_file(key, file) finally:
cache.delete(key)`. -/
def put_file (c : KVStore σc H F) (s : KVStore σs H F) (key : String)
    (file : H) (st : σc × σs) : Except Err String × (σc × σs) :=
  match s.put_file key file st.2 with
  | (r, s1) =>
      match c.delete key st.1 with
      | (Except.error e, c1) => (Except.error e, (c1, s1))
      | (Except.ok _, c1) => (r, (c1, s1))

end CacheDecorator

/-! ### A concrete, honest map-backed backend, used to instantiate theorems -/

/-- Association-list state of the concrete map backend. -/
abbrev KVMap := List (String × String)

/-- Lookup in an association list (first binding wins). -/
def mapGet (key : String) : KVMap → Option String
  | [] => none
  | (k, v) :: rest => if k = key then some v else mapGet key rest

/-- Remove every binding of `key`. -/
def mapDel (key : String) : KVMap → KVMap
  | [] => []
  | (k, v) :: rest =>
      if k = key then mapDel key rest else (k, v) :: mapDel key rest

/-- Overwrite the binding of `key` with `v`. -/
def mapPut (key v : String) (m : KVMap) : KVMap := (key, v) :: mapDel key m

theorem mapGet_mapDel (key : String) (m : KVMap) :
    mapGet key (mapDel key m) = none := by
  induction m with
  | nil => rfl
  | cons p rest ih =>
    obtain ⟨k, v⟩ := p
    by_cases h : k = key
    · simpa [mapDel, h] using ih
    · simpa [mapDel, mapGet, h] using ih

theorem mapGet_mapPut (key v : String) (m : KVMap) :
    mapGet key (mapPut key v m) = some v := by
  simp [mapPut, mapGet]

/-- An honest in-memory backend: `get`-like operations fail with `notFound`
exactly on absent keys, writes and deletes always succeed, `delete` is
idempotent.  Stream handles are the value strings themselves; the sink is
opaque. -/
def mapStore : KVStore KVMap String Unit where
  get := fun key m =>
    match mapGet key m with
    | some v => (Except.ok v, m)
    | none => (Except.error (Err.notFound 0), m)
  put := fun key v m => (Except.ok key, mapPut key v m)
  delete := fun key m => (Except.ok (), mapDel key m)
  get_file := fun key _ m =>
    match mapGet key m with
    | some _ => (Except.ok (), m)
    | none => (Except.error (Err.notFound 0), m)
  put_file := fun key h m => (Except.ok key, mapPut key h m)
  open_ := fun key m =>
    match mapGet key m with
    | some v => (Except.ok v, m)
    | none => (Except.error (Err.notFound 0), m)
  copy := fun src dest m =>
    match mapGet src m with
    | some v => (Except.ok dest, mapPut dest v m)
    | none => (Except.error (Err.notFound 0), m)

/-- Like `mapStore`, but `delete` always raises `IOError 7` (a backend whose
delete operation fails), leaving its state untouched. -/
def badDeleteStore : KVStore KVMap String Unit :=
  { mapStore with delete := fun _ m => (Except.error (Err.ioError 7), m) }

/-- A map backend that additionally counts how many times its `delete` was
invoked, to observe whether a call was attempted at all. -/
def countingCache : KVStore (KVMap × Nat) String Unit where
  get := fun key st =>
    match mapGet key st.1 with
    | some v => (Except.ok v, st)
    | none => (Except.error (Err.notFound 0), st)
  put := fun key v st => (Except.ok key, (mapPut key v st.1, st.2))
  delete := fun key st => (Except.ok (), (mapDel key st.1, st.2 + 1))
  get_file := fun key _ st =>
    match mapGet key st.1 with
    | some _ => (Except.ok (), st)
    | none => (Except.error (Err.notFound 0), st)
  put_file := fun key h st => (Except.ok key, (mapPut key h st.1, st.2))
  open_ := fun key st =>
    match mapGet key st.1 with
    | some v => (Except.ok v, st)
    | none => (Except.error (Err.notFound 0), st)
  copy := fun src dest st =>
    match mapGet src st.1 with
    | some v => (Except.ok dest, (mapPut dest v st.1, st.2))
    | none => (Except.error (Err.notFound 0), st)

/-- A cache backend whose read operations always raise `IOError 3` (a
transient backend failure); writes succeed without storing anything. -/
def flakyCache : KVStore Unit String Unit where
  get := fun _ u => (Except.error (Err.ioError 3), u)
  put := fun key _ u => (Except.ok key, u)
  delete := fun _ u => (Except.ok (), u)
  get_file := fun _ _ u => (Except.error (Err.ioError 3), u)
  put_file := fun key _ u => (Except.ok key, u)
  open_ := fun _ u => (Except.error (Err.ioError 3), u)
  copy := fun _ dest u => (Except.ok dest, u)

/-! ### Claims about the read paths -/

/-- Claim C8: if `cache.get key` succeeds with value `v`, the decorator's
`get` returns that cached value, and no call at all is made on the backing
store — the conclusion holds for every backing store `s` and every store
state `sst`, and leaves `sst` unchanged. -/
theorem get_cache_hit_ignores_store {σc H F : Type} (c : KVStore σc H F)
    (key v : String) (cst c1 : σc)
    (hc : c.get key cst = (Except.ok v, c1)) :
    ∀ (σs : Type) (s : KVStore σs H F) (sst : σs),
      CacheDecorator.get c s key (cst, sst) = (Except.ok v, (c1, sst)) := by
  intro σs s sst
  simp [CacheDecorator.get, hc]

/-- Claim C8 witness at a concrete input. -/
theorem get_cache_hit_ignores_store_witness :
    CacheDecorator.get mapStore badDeleteStore "x" ([("x", "1")], []) =
      (Except.ok "1", ([("x", "1")], [])) :=
  get_cache_hit_ignores_store mapStore "x" "1" [("x", "1")] [("x", "1")] rfl
    KVMap badDeleteStore []

/-- Claim C5: if `cache.get key` raises a transient `IOError` (`StoreError`
distinct from not-found), the decorator's `get` returns exactly the outcome of
`store.get key` — value or failure — without re-raising the cache's error. -/
theorem get_ioerror_falls_back_to_store {σc σs H F : Type} (c : KVStore σc H F)
    (s : KVStore σs H F) (key : String) (n : Nat) (cst c1 : σc) (sst : σs)
    (hc : c.get key cst = (Except.error (Err.ioError n), c1)) :
    CacheDecorator.get c s key (cst, sst) =
      ((s.get key sst).1, (c1, (s.get key sst).2)) := by
  rcases hsg : s.get key sst with ⟨r, s1⟩
  simp [CacheDecorator.get, hc, hsg]

/-- Claim C5 witness at a concrete input. -/
theorem get_ioerror_falls_back_to_store_witness :
    CacheDecorator.get flakyCache mapStore "z" ((), [("z", "3")]) =
      (Except.ok "3", ((), [("z", "3")])) :=
  (get_ioerror_falls_back_to_store flakyCache mapStore "z" 3 () ()
    [("z", "3")] rfl).trans rfl

/-- Claim C6: if `cache.get_file key file` raises an `IOError` (`StoreError`
distinct from not-found), the decorator's `get_file` performs no fallback to
the backing store: the very same error propagates, and the store state `sst`
is returned untouched (for every backing store `s`). -/
theorem get_file_ioerror_propagates {σc σs H F : Type} (c : KVStore σc H F)
    (s : KVStore σs H F) (key : String) (file : F) (n : Nat) (cst c1 : σc)
    (sst : σs)
    (hc : c.get_file key file cst = (Except.error (Err.ioError n), c1)) :
    CacheDecorator.get_file c s key file (cst, sst) =
      (Except.error (Err.ioError n), (c1, sst)) := by
  simp [CacheDecorator.get_file, hc]

/-- Claim C6 witness at a concrete input. -/
theorem get_file_ioerror_propagates_witness :
    CacheDecorator.get_file flakyCache mapStore "z" () ((), [("z", "3")]) =
      (Except.error (Err.ioError 3), ((), [("z", "3")])) :=
  get_file_ioerror_propagates flakyCache mapStore "z" () 3 () ()
    [("z", "3")] rfl

/-- Claim C4: if `cache.get key` raises a `KeyError` (not-found), the
decorator's `get` fetches the value from `store.get`, writes it into the
cache via `cache.put`, and returns it; and any failure `e` raised by
`store.get` on this path propagates to the caller unmodified. -/
theorem get_miss_populates_cache {σc σs H F : Type} (c : KVStore σc H F)
    (s : KVStore σs H F) (key : String) (n : Nat) (cst c1 : σc) (sst : σs)
    (hc : c.get key cst = (Except.error (Err.notFound n), c1)) :
    (∀ v s1 i c2, s.get key sst = (Except.ok v, s1) →
        c.put key v c1 = (Except.ok i, c2) →
        CacheDecorator.get c s key (cst, sst) = (Except.ok v, (c2, s1)))
    ∧ (∀ e s1, s.get key sst = (Except.error e, s1) →
        CacheDecorator.get c s key (cst, sst) = (Except.error e, (c1, s1))) := by
  constructor
  · intro v s1 i c2 hs hp
    simp [CacheDecorator.get, hc, hs, hp]
  · intro e s1 hs
    simp [CacheDecorator.get, hc, hs]

/-- Claim C4 witness: both branches exercised at concrete inputs — a miss that
repopulates from the store, and a miss whose store read fails with a
distinguished error that propagates unmodified. -/
theorem get_miss_populates_cache_witness :
    CacheDecorator.get mapStore mapStore "x" ([], [("x", "1")]) =
      (Except.ok "1", ([("x", "1")], [("x", "1")]))
    ∧ CacheDecorator.get mapStore badDeleteStore "x" ([], []) =
      (Except.error (Err.notFound 0), ([], [])) :=
  ⟨(get_miss_populates_cache mapStore mapStore "x" 0 [] [] [("x", "1")]
      rfl).1 "1" [("x", "1")] "x" [("x", "1")] rfl rfl,
   (get_miss_populates_cache mapStore badDeleteStore "x" 0 [] [] []
      rfl).2 (Err.notFound 0) [] rfl⟩

/-- Claim C9: if `cache.get key` raises not-found and `store.get key` then
also fails with some error `e`, the decorator's `get` propagates `e`, and the
final cache state is exactly the state `c1` the failing `cache.get` left — no
`cache.put` runs on this path, witnessed by the result being the same for any
replacement `p` of the cache's `put` operation. -/
theorem get_miss_store_failure_leaves_cache {σc σs H F : Type}
    (c : KVStore σc H F) (s : KVStore σs H F) (key : String) (n : Nat)
    (cst c1 : σc) (sst s1 : σs) (e : Err)
    (hc : c.get key cst = (Except.error (Err.notFound n), c1))
    (hs : s.get key sst = (Except.error e, s1)) :
    CacheDecorator.get c s key (cst, sst) = (Except.error e, (c1, s1))
    ∧ ∀ p, CacheDecorator.get { c with put := p } s key (cst, sst) =
        (Except.error e, (c1, s1)) := by
  constructor
  · simp [CacheDecorator.get, hc, hs]
  · intro p
    simp [CacheDecorator.get, hc, hs]

/-- Claim C9 witness at a concrete input (key absent from both backends). -/
theorem get_miss_store_failure_leaves_cache_witness :
    CacheDecorator.get mapStore mapStore "x" ([], []) =
      (Except.error (Err.notFound 0), ([], [])) :=
  (get_miss_store_failure_leaves_cache mapStore mapStore "x" 0 [] [] [] []
    (Err.notFound 0) rfl rfl).1

/-- Claim C10: on the `IOError` fallback path of `get` (the cache's `get`
raised a transient error), a value successfully fetched from `store.get` is
returned to the caller but not written back into the cache: the final cache
state is exactly the state `c1` the failing `cache.get` left, and the result
is the same for any replacement `p` of the cache's `put` operation. -/
theorem get_ioerror_no_repopulation {σc σs H F : Type} (c : KVStore σc H F)
    (s : KVStore σs H F) (key v : String) (n : Nat) (cst c1 : σc)
    (sst s1 : σs)
    (hc : c.get key cst = (Except.error (Err.ioError n), c1))
    (hs : s.get key sst = (Except.ok v, s1)) :
    CacheDecorator.get c s key (cst, sst) = (Except.ok v, (c1, s1))
    ∧ ∀ p, CacheDecorator.get { c with put := p } s key (cst, sst) =
        (Except.ok v, (c1, s1)) := by
  constructor
  · simp [CacheDecorator.get, hc, hs]
  · intro p
    simp [CacheDecorator.get, hc, hs]

/-- Claim C10 witness at a concrete input. -/
theorem get_ioerror_no_repopulation_witness :
    CacheDecorator.get flakyCache mapStore "w" ((), [("w", "5")]) =
      (Except.ok "5", ((), [("w", "5")])) :=
  (get_ioerror_no_repopulation flakyCache mapStore "w" "5" 3 () ()
    [("w", "5")] [("w", "5")] rfl rfl).1

/-! ### Claims about the write paths -/

/-- Claim C3: in `put`, `put_file` and `copy`, the invalidation step
`cache.delete` executes after the primary store operation on every exit path
— the final cache state is the invalidation's post-state `ck`/`cd` no matter
what the primary operation returned — and if the invalidation raises `e`,
that `e` is the overall outcome, replacing any primary exception and
suppressing a successful primary result; if the invalidation succeeds, the
primary outcome stands. -/
theorem write_paths_finalizer_semantics {σc σs H F : Type}
    (c : KVStore σc H F) (s : KVStore σs H F) (key data src dest : String)
    (file : H) (cst : σc) (sst : σs) (rk rd : Except Err Unit) (ck cd : σc)
    (hck : c.delete key cst = (rk, ck)) (hcd : c.delete dest cst = (rd, cd)) :
    ((CacheDecorator.put c s key data (cst, sst)).2.1 = ck
      ∧ (CacheDecorator.put c s key data (cst, sst)).2.2 = (s.put key data sst).2
      ∧ (∀ e, rk = Except.error e →
          (CacheDecorator.put c s key data (cst, sst)).1 = Except.error e)
      ∧ (rk = Except.ok () →
          (CacheDecorator.put c s key data (cst, sst)).1 = (s.put key data sst).1))
    ∧ ((CacheDecorator.put_file c s key file (cst, sst)).2.1 = ck
      ∧ (CacheDecorator.put_file c s key file (cst, sst)).2.2 = (s.put_file key file sst).2
      ∧ (∀ e, rk = Except.error e →
          (CacheDecorator.put_file c s key file (cst, sst)).1 = Except.error e)
      ∧ (rk = Except.ok () →
          (CacheDecorator.put_file c s key file (cst, sst)).1 = (s.put_file key file sst).1))
    ∧ ((CacheDecorator.copy c s src dest (cst, sst)).2.1 = cd
      ∧ (CacheDecorator.copy c s src dest (cst, sst)).2.2 = (s.copy src dest sst).2
      ∧ (∀ e, rd = Except.error e →
          (CacheDecorator.copy c s src dest (cst, sst)).1 = Except.error e)
      ∧ (rd = Except.ok () →
          (CacheDecorator.copy c s src dest (cst, sst)).1 = (s.copy src dest sst).1)) := by
  rcases hsp : s.put key data sst with ⟨r1, s1⟩
  rcases hsf : s.put_file key file sst with ⟨r2, s2⟩
  rcases hsc : s.copy src dest sst with ⟨r3, s3⟩
  refine ⟨⟨?_, ?_, ?_, ?_⟩, ⟨?_, ?_, ?_, ?_⟩, ⟨?_, ?_, ?_, ?_⟩⟩
  · cases rk <;> simp [CacheDecorator.put, hsp, hck]
  · cases rk <;> simp [CacheDecorator.put, hsp, hck]
  · intro e he; subst he; simp [CacheDecorator.put, hsp, hck]
  · intro hok; subst hok; simp [CacheDecorator.put, hsp, hck]
  · cases rk <;> simp [CacheDecorator.put_file, hsf, hck]
  · cases rk <;> simp [CacheDecorator.put_file, hsf, hck]
  · intro e he; subst he; simp [CacheDecorator.put_file, hsf, hck]
  · intro hok; subst hok; simp [CacheDecorator.put_file, hsf, hck]
  · cases rd <;> simp [CacheDecorator.copy, hsc, hcd]
  · cases rd <;> simp [CacheDecorator.copy, hsc, hcd]
  · intro e he; subst he; simp [CacheDecorator.copy, hsc, hcd]
  · intro hok; subst hok; simp [CacheDecorator.copy, hsc, hcd]

/-- Claim C3 witness: a successful invalidation lets the primary result
through, and a failing invalidation replaces a successful primary result. -/
theorem write_paths_finalizer_semantics_witness :
    (CacheDecorator.put mapStore mapStore "k" "v" ([("k", "old")], [])).1 =
      Except.ok "k"
    ∧ (CacheDecorator.put badDeleteStore mapStore "k" "v" ([], [])).1 =
      Except.error (Err.ioError 7) :=
  ⟨((write_paths_finalizer_semantics mapStore mapStore "k" "v" "a" "b" "h"
      [("k", "old")] [] (Except.ok ()) (Except.ok ())
      (mapDel "k" [("k", "old")]) (mapDel "b" [("k", "old")])
      rfl rfl).1.2.2.2 rfl).trans rfl,
   (write_paths_finalizer_semantics badDeleteStore mapStore "k" "v" "a" "b"
      "h" [] [] (Except.error (Err.ioError 7)) (Except.error (Err.ioError 7))
      [] [] rfl rfl).1.2.2.1 (Err.ioError 7) rfl⟩

/-- Claim C7: with honest map backends in any starting states (in particular
a cold cache), `put key v` succeeds and a following `get key` returns `v`:
the write invalidates the cache, the read misses, falls through to the store
and returns the freshly written value. -/
theorem put_then_get_returns_value (key v : String) (cm sm : KVMap) :
    (CacheDecorator.put mapStore mapStore key v (cm, sm)).1 = Except.ok key
    ∧ (CacheDecorator.get mapStore mapStore key
        (CacheDecorator.put mapStore mapStore key v (cm, sm)).2).1 =
      Except.ok v := by
  constructor
  · simp [CacheDecorator.put, mapStore]
  · simp [CacheDecorator.put, CacheDecorator.get, mapStore, mapGet_mapDel,
      mapGet_mapPut]

/-! ### Claims about `delete` -/

/-- Claim C1 counterexample: `delete` has no `try/finally` — when
`store.delete` raises, the exception propagates at once and `cache.delete` is
never attempted.  Here the backing store's delete raises `IOError 7` while
the cache counts its delete invocations: the decorator's `delete` returns the
store's error with the cache's invocation counter still `0` (and the stale
entry still cached), refuting the claim that `cache.delete` is still
attempted before the failure propagates. -/
theorem delete_skips_cache_on_store_error :
    CacheDecorator.delete countingCache badDeleteStore "k"
      (([("k", "old")], 0), [("k", "old")]) =
      (Except.error (Err.ioError 7), (([("k", "old")], 0), [("k", "old")])) :=
  rfl

/-- Claim C1 amended: `delete` calls `store.delete` first; if that raises,
the failure propagates immediately and `cache.delete` is NOT attempted (the
cache state is returned untouched, for every cache backend); only when
`store.delete` succeeds is `cache.delete` attempted, and its outcome —
success or failure — becomes the overall outcome without suppression. -/
theorem delete_store_first_then_cache {σc σs H F : Type} (c : KVStore σc H F)
    (s : KVStore σs H F) (key : String) (cst : σc) (sst : σs) :
    (∀ e s1, s.delete key sst = (Except.error e, s1) →
        CacheDecorator.delete c s key (cst, sst) = (Except.error e, (cst, s1)))
    ∧ (∀ s1, s.delete key sst = (Except.ok (), s1) →
        CacheDecorator.delete c s key (cst, sst) =
          ((c.delete key cst).1, ((c.delete key cst).2, s1))) := by
  constructor
  · intro e s1 hs
    simp [CacheDecorator.delete, hs]
  · intro s1 hs
    rcases hcd : c.delete key cst with ⟨r, c1⟩
    simp [CacheDecorator.delete, hs, hcd]

/-- Claim C1 (amended) witness: both branches at concrete inputs — a failing
store delete that leaves the cache untouched, and a succeeding one followed
by the cache delete. -/
theorem delete_store_first_then_cache_witness :
    CacheDecorator.delete mapStore badDeleteStore "k" ([("k", "c")], []) =
      (Except.error (Err.ioError 7), ([("k", "c")], []))
    ∧ CacheDecorator.delete mapStore mapStore "k"
        ([("k", "c")], [("k", "s")]) = (Except.ok (), ([], [])) :=
  ⟨(delete_store_first_then_cache mapStore badDeleteStore "k"
      [("k", "c")] []).1 (Err.ioError 7) [] rfl,
   ((delete_store_first_then_cache mapStore mapStore "k"
      [("k", "c")] [("k", "s")]).2 (mapDel "k" [("k", "s")]) rfl).trans rfl⟩

/-- Claim C2 counterexample: after `delete key` raises because `store.delete`
failed, the cache still holds the value for `key` that it held before the
operation began — the operation completed (by raising) yet the stale entry
survives, refuting the invariant for the `delete` operation. -/
theorem stale_cache_after_failed_store_delete :
    (CacheDecorator.delete mapStore badDeleteStore "k"
        ([("k", "old")], [("k", "old")])).1 = Except.error (Err.ioError 7)
    ∧ mapGet "k" (CacheDecorator.delete mapStore badDeleteStore "k"
        ([("k", "old")], [("k", "old")])).2.1 = some "old" :=
  ⟨rfl, rfl⟩

/-- Claim C2 amended: with a reliable map-backed cache, after `put`,
`put_file` or `copy(src, key)` completes — normally or by raising, for any
behaviour of the backing store — the cache holds no entry for `key`; after
`delete key` the same holds provided `store.delete` succeeded (if it raises,
the cache is untouched and may retain the stale entry). -/
theorem write_ops_invalidate_cache {σs : Type} (s : KVStore σs String Unit)
    (key src v h : String) (cm : KVMap) (sst : σs) :
    mapGet key (CacheDecorator.put mapStore s key v (cm, sst)).2.1 = none
    ∧ mapGet key
        (CacheDecorator.put_file mapStore s key h (cm, sst)).2.1 = none
    ∧ mapGet key (CacheDecorator.copy mapStore s src key (cm, sst)).2.1 = none
    ∧ ((s.delete key sst).1 = Except.ok () →
        mapGet key (CacheDecorator.delete mapStore s key (cm, sst)).2.1 =
          none) := by
  refine ⟨?_, ?_, ?_, ?_⟩
  · rcases hsp : s.put key v sst with ⟨r, s1⟩
    simp [CacheDecorator.put, hsp, mapStore, mapGet_mapDel]
  · rcases hsf : s.put_file key h sst with ⟨r, s1⟩
    simp [CacheDecorator.put_file, hsf, mapStore, mapGet_mapDel]
  · rcases hsc : s.copy src key sst with ⟨r, s1⟩
    simp [CacheDecorator.copy, hsc, mapStore, mapGet_mapDel]
  · intro hdel
    rcases hsd : s.delete key sst with ⟨r, s1⟩
    rw [hsd] at hdel
    simp only at hdel
    subst hdel
    simp [CacheDecorator.delete, hsd, mapStore, mapGet_mapDel]

/-- Claim C2 (amended) witness at concrete inputs, including the `delete`
conjunct's hypothesis. -/
theorem write_ops_invalidate_cache_witness :
    mapGet "y" (CacheDecorator.put mapStore mapStore "y" "2"
      ([("y", "old")], [])).2.1 = none
    ∧ mapGet "y" (CacheDecorator.delete mapStore mapStore "y"
      ([("y", "old")], [("y", "old")])).2.1 = none :=
  ⟨(write_ops_invalidate_cache mapStore "y" "a" "2" "h" [("y", "old")] []).1,
   (write_ops_invalidate_cache mapStore "y" "a" "2" "h" [("y", "old")]
      [("y", "old")]).2.2.2 rfl⟩
